import Mathlib

/-!
# Verification of the universal-mcp Reddit binding layer

A shallow embedding of `src/universal_mcp_reddit/app.py`: the authenticated
request executor (`_post`) and the two representative listing operations
(`get_subreddit_posts`, `search_subreddits`) together with the `create_post`
validation prologue.  JSON payloads are modelled by the inductive `JVal`
(numbers as integers), Python dictionary operations by explicit lookup on
association lists, and Python exceptions by `Except String`.
-/

set_option autoImplicit false

namespace RedditApp

/-- A JSON value as produced by `response.json()`.  Numbers are modelled as
integers (the fields touched by the listing operations — scores, subscriber
counts, error codes — are integral). -/
inductive JVal where
  | null
  | bool (b : Bool)
  | int (n : Int)
  | str (s : String)
  | arr (items : List JVal)
  | obj (fields : List (String × JVal))
deriving Repr, BEq

/-- First-match lookup in a field list; Python dictionaries have unique keys,
so first-match agrees with `dict.__getitem__`. -/
def lookupField : List (String × JVal) → String → Option JVal
  | [], _ => none
  | (k, v) :: rest, key => if k = key then some v else lookupField rest key

/-- Python truthiness (`bool(x)`) on the modelled JSON values. -/
def truthy : JVal → Bool
  | .null => false
  | .bool b => b
  | .int n => decide (n ≠ 0)
  | .str s => decide (s ≠ "")
  | .arr items => !items.isEmpty
  | .obj fields => !fields.isEmpty

mutual
/-- Python `repr()` of a modelled JSON value (used inside container
rendering).  String escaping inside `repr` is not modelled. -/
def pyrepr : JVal → String
  | .null => "None"
  | .bool true => "True"
  | .bool false => "False"
  | .int n => toString n
  | .str s => "\x27" ++ s ++ "\x27"
  | .arr items => "[" ++ pyreprItems items ++ "]"
  | .obj fields => "\x7b" ++ pyreprFields fields ++ "\x7d"

/-- Comma-separated `repr`s of the items of a list. -/
def pyreprItems : List JVal → String
  | [] => ""
  | [x] => pyrepr x
  | x :: rest => pyrepr x ++ ", " ++ pyreprItems rest

/-- Comma-separated `'key': repr(value)` renderings of a dictionary. -/
def pyreprFields : List (String × JVal) → String
  | [] => ""
  | [(k, v)] => "\x27" ++ k ++ "\x27: " ++ pyrepr v
  | (k, v) :: rest => "\x27" ++ k ++ "\x27: " ++ pyrepr v ++ ", " ++ pyreprFields rest
end

/-- Python `str()` of a modelled JSON value, as used by f-string
interpolation. -/
def pystr : JVal → String
  | .str s => s
  | v => pyrepr v

/-- `d.get(key, default)`: succeeds on dictionaries, raises `AttributeError`
on anything else (as Python does when `.get` is called on a non-dict). -/
def pyGet (v : JVal) (key : String) (default : JVal) : Except String JVal :=
  match v with
  | .obj fields => .ok ((lookupField fields key).getD default)
  | _ => .error "AttributeError: object has no attribute get"

/-- `d[key]`: raises `KeyError` when absent and `TypeError` on non-dicts. -/
def pyIndex (v : JVal) (key : String) : Except String JVal :=
  match v with
  | .obj fields =>
    match lookupField fields key with
    | some x => .ok x
    | none => .error "KeyError"
  | _ => .error "TypeError: value is not subscriptable"

/-- Is the char-list `n` a prefix of `l`? (helper for Python `in` on
strings). -/
def listPrefixB : List Char → List Char → Bool
  | [], _ => true
  | _ :: _, [] => false
  | a :: as, b :: bs => a == b && listPrefixB as bs

/-- Does the char-list `l` contain `n` as a contiguous sublist? -/
def listSubB (n : List Char) : List Char → Bool
  | [] => n.isEmpty
  | c :: cs => listPrefixB n (c :: cs) || listSubB n cs

/-- Python `key in v`: key membership on dicts, element membership on lists,
substring test on strings, `TypeError` otherwise. -/
def pyIn (key : String) (v : JVal) : Except String Bool :=
  match v with
  | .obj fields => .ok (lookupField fields key).isSome
  | .arr items => .ok (items.contains (.str key))
  | .str s => .ok (listSubB key.toList s.toList)
  | _ => .error "TypeError: argument is not iterable"

/-- Remove leading and trailing whitespace from a character list. -/
def trimList (l : List Char) : List Char :=
  ((l.dropWhile Char.isWhitespace).reverse.dropWhile Char.isWhitespace).reverse

/-- Python `v.strip()`: strips surrounding whitespace from a string, raises
`AttributeError` on non-strings. -/
def pyStrip (v : JVal) : Except String String :=
  match v with
  | .str s => .ok (String.mk (trimList s.data))
  | _ => .error "AttributeError: object has no attribute strip"

/-- Python `len(v)`: defined for strings, lists and dicts, `TypeError`
otherwise. -/
def pyLen (v : JVal) : Except String Nat :=
  match v with
  | .str s => .ok s.length
  | .arr items => .ok items.length
  | .obj fields => .ok fields.length
  | _ => .error "TypeError: object has no len"

/-- Python `enumerate(v)` materialised as a list: the items of a list, the
characters of a string, the keys of a dict; `TypeError` otherwise. -/
def pyIterate (v : JVal) : Except String (List JVal) :=
  match v with
  | .arr items => .ok items
  | .str s => .ok (s.toList.map (fun c => .str (String.singleton c)))
  | .obj fields => .ok (fields.map (fun kv => .str kv.1))
  | _ => .error "TypeError: object is not iterable"

/-! ## The authenticated request executor `_post` -/

/-- An HTTP response as seen by `_post`: status code and body text. -/
structure HttpResponse where
  status : Nat
  text : String
deriving Repr, DecidableEq

/-- What `_post` does with a completed HTTP exchange. -/
inductive PostOutcome where
  /-- The `httpx` response object is returned (2xx). -/
  | response (r : HttpResponse)
  /-- A plain string is returned in place of the response (the 429 path). -/
  | text (s : String)
  /-- The named exception propagates to the caller. -/
  | raised (e : String)
deriving Repr, DecidableEq

/-- The fixed fallback sentence returned on a 429 with an empty body. -/
def rateLimitFallback : String := "Rate limit exceeded. Please try again later."

/-- `_post`'s classification of the HTTP response (`app.py` lines 16-32):
`response.raise_for_status()` raises `HTTPStatusError` exactly on non-2xx
statuses; a 429 is absorbed into `e.response.text or <fallback>`, every
other `HTTPStatusError` is re-raised. -/
def postClassify (resp : HttpResponse) : PostOutcome :=
  if 200 ≤ resp.status ∧ resp.status ≤ 299 then .response resp
  else if resp.status = 429 then
    .text (if resp.text = "" then rateLimitFallback else resp.text)
  else .raised "HTTPStatusError"

/-! ## Thousands-separator formatting (Python `f"\x7bn:,\x7d"`) -/

/-- Insert a comma after every third digit of a reversed digit list. -/
def insertCommasRev : List Char → Nat → List Char
  | [], _ => []
  | c :: rest, k =>
    if k % 3 = 0 ∧ k ≠ 0 then ',' :: c :: insertCommasRev rest (k + 1)
    else c :: insertCommasRev rest (k + 1)

/-- `f"\x7bn:,\x7d"` for a natural number: decimal digits grouped by
thousands. -/
def natCommas (n : Nat) : String :=
  String.mk ((insertCommasRev (toString n).toList.reverse 0).reverse)

/-- `f"\x7bn:,\x7d"` for an integer. -/
def intCommas (n : Int) : String :=
  if n < 0 then "-" ++ natCommas (-n).toNat else natCommas n.toNat

/-- The `,` format specifier applied to a modelled JSON value: integers group
by thousands, booleans format as integers, every other type raises. -/
def commaFormat (v : JVal) : Except String String :=
  match v with
  | .int n => .ok (intCommas n)
  | .bool b => .ok (if b then "1" else "0")
  | _ => .error "ValueError: cannot format value with comma specifier"

/-! ## `get_subreddit_posts` (app.py lines 47-105) -/

/-- Whether the operation returned before or after the HTTP request was
issued, together with the returned string. -/
structure RunOutcome where
  output : String
  networkCalled : Bool
deriving Repr, DecidableEq

def validTimeframes : List String := ["hour", "day", "week", "month", "year", "all"]

/-- The validation-error string for an invalid timeframe. -/
def timeframeError (timeframe : String) : String :=
  "Error: Invalid timeframe \x27" ++ timeframe ++ "\x27. Please use one of: " ++
    String.intercalate ", " validTimeframes

/-- The validation-error string for an out-of-range limit. -/
def limitError (limit : Int) : String :=
  "Error: Invalid limit \x27" ++ toString limit ++ "\x27. Please use a value between 1 and 100."

/-- The two lines rendered for one post container (loop body, app.py lines
95-104): `post = post_container.get("data", \x7b\x7d)` followed by field reads
with fallbacks and the numbered entry line. -/
def formatPost (i : Nat) (postContainer : JVal) : Except String (List String) := do
  let post ← pyGet postContainer "data" (.obj [])
  let title ← pyGet post "title" (.str "No Title")
  let score ← pyGet post "score" (.int 0)
  let author ← pyGet post "author" (.str "Unknown Author")
  let permalink ← pyGet post "permalink" (.str "")
  let fullUrl :=
    if truthy permalink then "https://www.reddit.com" ++ pystr permalink else "No Link"
  .ok [toString (i + 1) ++ ". \"" ++ pystr title ++ "\" by u/" ++ pystr author ++
         " (Score: " ++ pystr score ++ ")",
       "   Link: " ++ fullUrl]

/-- The `for i, post_container in enumerate(posts)` loop, carrying the
running index. -/
def formatPosts : Nat → List JVal → Except String (List String)
  | _, [] => .ok []
  | i, c :: rest => do
    let lines ← formatPost i c
    let restLines ← formatPosts (i + 1) rest
    .ok (lines ++ restLines)

/-- The header line of a post listing. -/
def postsHeader (n : Nat) (subreddit timeframe : String) : String :=
  "Top " ++ toString n ++ " posts from r/" ++ subreddit ++
    " (timeframe: " ++ timeframe ++ "):\n"

/-- The fixed no-results sentence of `get_subreddit_posts`. -/
def noPostsMsg (subreddit timeframe : String) : String :=
  "No top posts found in r/" ++ subreddit ++ " for the timeframe \x27" ++ timeframe ++ "\x27."

/-- `get_subreddit_posts` after validation: the HTTP request is issued and
`payload` is the parsed JSON of the response (app.py lines 75-105). -/
def getPostsFetch (subreddit timeframe : String) (payload : JVal) :
    Except String RunOutcome := do
  let hasError ← pyIn "error" payload
  if hasError then
    let code ← pyIndex payload "error"
    let msg ← pyGet payload "message" (.str "")
    .ok ⟨"Error from Reddit API: " ++ pystr code ++ " - " ++ pystr msg, true⟩
  else
    let dataField ← pyGet payload "data" (.obj [])
    let posts ← pyGet dataField "children" (.arr [])
    if ¬ truthy posts then
      .ok ⟨noPostsMsg subreddit timeframe, true⟩
    else do
      let n ← pyLen posts
      let items ← pyIterate posts
      let body ← formatPosts 0 items
      .ok ⟨String.intercalate "\n" (postsHeader n subreddit timeframe :: body), true⟩

/-- `get_subreddit_posts(subreddit, limit, timeframe)`: parameter validation
followed by the fetch phase; `payload` stands for the JSON the network call
would return. -/
def getSubredditPosts (subreddit : String) (limit : Int) (timeframe : String)
    (payload : JVal) : Except String RunOutcome :=
  if timeframe ∉ validTimeframes then .ok ⟨timeframeError timeframe, false⟩
  else if ¬ (1 ≤ limit ∧ limit ≤ 100) then .ok ⟨limitError limit, false⟩
  else getPostsFetch subreddit timeframe payload

/-! ## `search_subreddits` (app.py lines 107-177) -/

def validSorts : List String := ["relevance", "activity"]

/-- The validation-error string for an invalid sort option. -/
def sortError (sort : String) : String :=
  "Error: Invalid sort option \x27" ++ sort ++ "\x27. Please use one of: " ++
    String.intercalate ", " validSorts

/-- The line(s) rendered for one subreddit container (loop body, app.py
lines 159-176). -/
def formatSub (i : Nat) (subContainer : JVal) : Except String (List String) := do
  let subData ← pyGet subContainer "data" (.obj [])
  let displayName ← pyGet subData "display_name" (.str "N/A")
  let title ← pyGet subData "title" (.str "No Title")
  let subscribers ← pyGet subData "subscribers" (.int 0)
  let publicDescription ← pyGet subData "public_description" (.str "")
  let stripped ← pyStrip publicDescription
  let description : JVal := if stripped ≠ "" then .str stripped else title
  let subscriberStr ← if truthy subscribers then commaFormat subscribers else .ok "Unknown"
  let line1 := toString (i + 1) ++ ". r/" ++ pystr displayName ++
    " (" ++ subscriberStr ++ " subscribers)"
  .ok (line1 :: (if truthy description then ["   Description: " ++ pystr description] else []))

/-- The `for i, sub_container in enumerate(subreddits)` loop. -/
def formatSubs : Nat → List JVal → Except String (List String)
  | _, [] => .ok []
  | i, c :: rest => do
    let lines ← formatSub i c
    let restLines ← formatSubs (i + 1) rest
    .ok (lines ++ restLines)

/-- The header line of a subreddit search listing. -/
def subsHeader (n : Nat) (query sort : String) : String :=
  "Found " ++ toString n ++ " subreddits matching \x27" ++ query ++
    "\x27 (sorted by " ++ sort ++ "):\n"

/-- The fixed no-results sentence of `search_subreddits`. -/
def noSubsMsg (query : String) : String :=
  "No subreddits found matching the query \x27" ++ query ++ "\x27."

/-- `search_subreddits` after validation (app.py lines 135-177). -/
def searchFetch (query sort : String) (payload : JVal) : Except String RunOutcome := do
  let hasError ← pyIn "error" payload
  if hasError then
    let code ← pyIndex payload "error"
    let msg ← pyGet payload "message" (.str "")
    .ok ⟨"Error from Reddit API during search: " ++ pystr code ++ " - " ++ pystr msg, true⟩
  else
    let dataField ← pyGet payload "data" (.obj [])
    let subreddits ← pyGet dataField "children" (.arr [])
    if ¬ truthy subreddits then
      .ok ⟨noSubsMsg query, true⟩
    else do
      let n ← pyLen subreddits
      let items ← pyIterate subreddits
      let body ← formatSubs 0 items
      .ok ⟨String.intercalate "\n" (subsHeader n query sort :: body), true⟩

/-- `search_subreddits(query, limit, sort)`: parameter validation followed by
the fetch phase. -/
def searchSubreddits (query : String) (limit : Int) (sort : String)
    (payload : JVal) : Except String RunOutcome :=
  if sort ∉ validSorts then .ok ⟨sortError sort, false⟩
  else if ¬ (1 ≤ limit ∧ limit ≤ 100) then .ok ⟨limitError limit, false⟩
  else searchFetch query sort payload

/-! ## `create_post` validation prologue (app.py lines 233-238) -/

/-- Whether the validation prologue of `create_post` raises or lets the call
proceed to the network phase. -/
inductive ValidationOutcome where
  /-- A `ValueError` with the given message is raised to the caller. -/
  | raise (msg : String)
  /-- Validation passed; the request is submitted. -/
  | proceed
deriving Repr, DecidableEq

/-- The three validation checks at the top of `create_post`; `text` and `url`
are optional strings, and Python `not text` is true for `None` and `""`. -/
def createPostValidate (kind : String) (text : Option String) (url : Option String) :
    ValidationOutcome :=
  if ¬ (kind = "self" ∨ kind = "link") then
    .raise "Invalid post kind. Must be one of \x27self\x27 or \x27link\x27."
  else if kind = "self" ∧ (text = none ∨ text = some "") then
    .raise "Text content is required for text posts."
  else if kind = "link" ∧ (url = none ∨ url = some "") then
    .raise "URL is required for link posts (including images)."
  else .proceed

/-! ## Statement helpers -/

/-- `needle` occurs contiguously inside `hay`. -/
def strContains (hay needle : String) : Prop :=
  ∃ pre post, hay = pre ++ (needle ++ post)

/-- `d[key] = v` on a field list: replace the binding if present, append it
otherwise (used to state that an output is insensitive to a field). -/
def setField : List (String × JVal) → String → JVal → List (String × JVal)
  | [], key, v => [(key, v)]
  | (k, w) :: rest, key, v =>
    if k = key then (key, v) :: rest else (k, w) :: setField rest key v

/-- A post container of the shape the loop body handles without raising: a
dict whose `data` value, when present, is itself a dict. -/
def isGoodPostItem : JVal → Bool
  | .obj ifields =>
    match lookupField ifields "data" with
    | none => true
    | some (.obj _) => true
    | some _ => false
  | _ => false

/-- The inner `data` dict of a post container (empty when absent). -/
def postFields : JVal → List (String × JVal)
  | .obj ifields =>
    match lookupField ifields "data" with
    | some (.obj pfields) => pfields
    | _ => []
  | _ => []

/-- The two lines the loop renders for a well-shaped post container, as a
pure function of the container. -/
def postBlock (i : Nat) (item : JVal) : List String :=
  [toString (i + 1) ++ ". \"" ++
     pystr ((lookupField (postFields item) "title").getD (.str "No Title")) ++
     "\" by u/" ++
     pystr ((lookupField (postFields item) "author").getD (.str "Unknown Author")) ++
     " (Score: " ++
     pystr ((lookupField (postFields item) "score").getD (.int 0)) ++ ")",
   "   Link: " ++
     (if truthy ((lookupField (postFields item) "permalink").getD (.str "")) then
       "https://www.reddit.com" ++
         pystr ((lookupField (postFields item) "permalink").getD (.str ""))
     else "No Link")]

/-- A subreddit container the search loop body handles without raising:
a dict whose `data` value, when present, is a dict whose
`public_description` is a string and whose `subscribers` is an integer
(when present). -/
def isGoodSubItem : JVal → Bool
  | .obj ifields =>
    match lookupField ifields "data" with
    | none => true
    | some (.obj sfields) =>
      (match lookupField sfields "public_description" with
       | none => true
       | some (.str _) => true
       | some _ => false) &&
      (match lookupField sfields "subscribers" with
       | none => true
       | some (.int _) => true
       | some _ => false)
    | some _ => false
  | _ => false

/-- The inner `data` dict of a subreddit container (empty when absent). -/
def subFields : JVal → List (String × JVal)
  | .obj ifields =>
    match lookupField ifields "data" with
    | some (.obj sfields) => sfields
    | _ => []
  | _ => []

/-- The subscriber-count rendering for a well-shaped subreddit container. -/
def subscriberDisplay (subscribers : JVal) : String :=
  if truthy subscribers then
    match subscribers with
    | .int n => intCommas n
    | .bool b => if b then "1" else "0"
    | _ => ""
  else "Unknown"

/-- The description value (`public_description` stripped, falling back to
`title`) for a well-shaped subreddit container. -/
def subDescription (sfields : List (String × JVal)) : JVal :=
  let stripped :=
    match (lookupField sfields "public_description").getD (.str "") with
    | .str s => String.mk (trimList s.data)
    | _ => ""
  if stripped ≠ "" then .str stripped
  else (lookupField sfields "title").getD (.str "No Title")

/-- The line(s) the search loop renders for a well-shaped subreddit
container, as a pure function of the container. -/
def subBlock (i : Nat) (item : JVal) : List String :=
  (toString (i + 1) ++ ". r/" ++
      pystr ((lookupField (subFields item) "display_name").getD (.str "N/A")) ++
      " (" ++
      subscriberDisplay ((lookupField (subFields item) "subscribers").getD (.int 0)) ++
      " subscribers)") ::
    (if truthy (subDescription (subFields item)) then
      ["   Description: " ++ pystr (subDescription (subFields item))]
    else [])

/-- The per-item render blocks of a listing, in item order, the index
starting at `i`. -/
def blocksFrom (f : Nat → JVal → List String) : Nat → List JVal → List (List String)
  | _, [] => []
  | i, x :: xs => f i x :: blocksFrom f (i + 1) xs

theorem lookupField_setField_ne (fields : List (String × JVal)) (key key' : String)
    (v : JVal) (h : key ≠ key') :
    lookupField (setField fields key v) key' = lookupField fields key' := by
  induction fields with
  | nil => simp [setField, lookupField, h]
  | cons kv rest ih =>
    obtain ⟨k, w⟩ := kv
    by_cases hk : k = key
    · subst hk
      simp [setField, lookupField, h]
    · simp only [setField, if_neg hk, lookupField]
      by_cases hk' : k = key'
      · simp [hk']
      · simp [hk', ih]

@[simp] theorem pyGet_obj (fields : List (String × JVal)) (key : String) (d : JVal) :
    pyGet (.obj fields) key d = .ok ((lookupField fields key).getD d) := rfl

@[simp] theorem pyIn_obj (key : String) (fields : List (String × JVal)) :
    pyIn key (.obj fields) = .ok (lookupField fields key).isSome := rfl

theorem nonempty_of_append_left (a b : String) (ha : a.length ≠ 0) : a ++ b ≠ "" := by
  intro h
  have h2 := congrArg String.length h
  rw [String.length_append] at h2
  have h0 : String.length "" = 0 := rfl
  omega

theorem strContains_iff_sublist (hay needle : String) :
    strContains hay needle ↔ needle.data <:+: hay.data := by
  constructor
  · rintro ⟨pre, post, h⟩
    refine ⟨pre.data, post.data, ?_⟩
    rw [h]
    simp [String.data_append]
  · rintro ⟨s, t, h⟩
    refine ⟨⟨s⟩, ⟨t⟩, ?_⟩
    apply String.ext
    simp only [String.data_append]
    rw [← h, List.append_assoc]

theorem formatPost_good (i : Nat) (it : JVal) (h : isGoodPostItem it = true) :
    formatPost i it = .ok (postBlock i it) := by
  cases it with
  | obj ifields =>
    rcases hd : lookupField ifields "data" with _ | v
    · simp [formatPost, postBlock, postFields, hd, lookupField, Bind.bind, Except.bind]
    · cases v with
      | obj pfields =>
        simp [formatPost, postBlock, postFields, hd, Bind.bind, Except.bind]
      | null => simp [isGoodPostItem, hd] at h
      | bool b => simp [isGoodPostItem, hd] at h
      | int n => simp [isGoodPostItem, hd] at h
      | str s => simp [isGoodPostItem, hd] at h
      | arr l => simp [isGoodPostItem, hd] at h
  | null => simp [isGoodPostItem] at h
  | bool b => simp [isGoodPostItem] at h
  | int n => simp [isGoodPostItem] at h
  | str s => simp [isGoodPostItem] at h
  | arr l => simp [isGoodPostItem] at h

theorem formatPosts_good (items : List JVal)
    (h : ∀ it ∈ items, isGoodPostItem it = true) :
    ∀ i, formatPosts i items = .ok (blocksFrom postBlock i items).flatten := by
  induction items with
  | nil => intro i; simp [formatPosts, blocksFrom]
  | cons x xs ih =>
    intro i
    have hx : isGoodPostItem x = true := h x (List.mem_cons_self x xs)
    have hxs : ∀ it ∈ xs, isGoodPostItem it = true :=
      fun it hit => h it (List.mem_cons_of_mem x hit)
    simp [formatPosts, formatPost_good i x hx, ih hxs (i + 1), blocksFrom,
      Bind.bind, Except.bind]

theorem formatSub_good (i : Nat) (it : JVal) (h : isGoodSubItem it = true) :
    formatSub i it = .ok (subBlock i it) := by
  cases it with
  | obj ifields =>
    rcases hd : lookupField ifields "data" with _ | v
    · simp [formatSub, subBlock, subFields, subDescription, subscriberDisplay, hd,
        lookupField, pyStrip, truthy, Bind.bind, Except.bind]
    · cases v with
      | obj sfields =>
        have h' := h
        simp only [isGoodSubItem, hd, Bool.and_eq_true] at h'
        obtain ⟨hpd, hsub⟩ := h'
        rcases hpdl : lookupField sfields "public_description" with _ | pv
        · rcases hsubl : lookupField sfields "subscribers" with _ | sv
          · simp [formatSub, subBlock, subFields, subDescription, subscriberDisplay,
              hd, hpdl, hsubl, pyStrip, truthy, Bind.bind, Except.bind]
          · cases sv with
            | int n =>
              simp only [formatSub, subBlock, subFields, subDescription,
                subscriberDisplay, hd, hpdl, hsubl, pyGet_obj, Option.getD_some,
                Option.getD_none, pyStrip, Bind.bind, Except.bind]
              cases htr : truthy (.int n) with
              | true => simp [htr, commaFormat]
              | false => simp [htr]
            | null => rw [hsubl] at hsub; simp at hsub
            | bool b => rw [hsubl] at hsub; simp at hsub
            | str s => rw [hsubl] at hsub; simp at hsub
            | arr l => rw [hsubl] at hsub; simp at hsub
            | obj l => rw [hsubl] at hsub; simp at hsub
        · cases pv with
          | str ps =>
            rcases hsubl : lookupField sfields "subscribers" with _ | sv
            · simp [formatSub, subBlock, subFields, subDescription, subscriberDisplay,
                hd, hpdl, hsubl, pyStrip, truthy, Bind.bind, Except.bind]
            · cases sv with
              | int n =>
                simp only [formatSub, subBlock, subFields, subDescription,
                  subscriberDisplay, hd, hpdl, hsubl, pyGet_obj, Option.getD_some,
                  Option.getD_none, pyStrip, Bind.bind, Except.bind]
                cases htr : truthy (.int n) with
                | true => simp [htr, commaFormat]
                | false => simp [htr]
              | null => rw [hsubl] at hsub; simp at hsub
              | bool b => rw [hsubl] at hsub; simp at hsub
              | str s => rw [hsubl] at hsub; simp at hsub
              | arr l => rw [hsubl] at hsub; simp at hsub
              | obj l => rw [hsubl] at hsub; simp at hsub
          | null => rw [hpdl] at hpd; simp at hpd
          | bool b => rw [hpdl] at hpd; simp at hpd
          | int n => rw [hpdl] at hpd; simp at hpd
          | arr l => rw [hpdl] at hpd; simp at hpd
          | obj l => rw [hpdl] at hpd; simp at hpd
      | null => simp [isGoodSubItem, hd] at h
      | bool b => simp [isGoodSubItem, hd] at h
      | int n => simp [isGoodSubItem, hd] at h
      | str s => simp [isGoodSubItem, hd] at h
      | arr l => simp [isGoodSubItem, hd] at h
  | null => simp [isGoodSubItem] at h
  | bool b => simp [isGoodSubItem] at h
  | int n => simp [isGoodSubItem] at h
  | str s => simp [isGoodSubItem] at h
  | arr l => simp [isGoodSubItem] at h

theorem formatSubs_good (items : List JVal)
    (h : ∀ it ∈ items, isGoodSubItem it = true) :
    ∀ i, formatSubs i items = .ok (blocksFrom subBlock i items).flatten := by
  induction items with
  | nil => intro i; simp [formatSubs, blocksFrom]
  | cons x xs ih =>
    intro i
    have hx : isGoodSubItem x = true := h x (List.mem_cons_self x xs)
    have hxs : ∀ it ∈ xs, isGoodSubItem it = true :=
      fun it hit => h it (List.mem_cons_of_mem x hit)
    simp [formatSubs, formatSub_good i x hx, ih hxs (i + 1), blocksFrom,
      Bind.bind, Except.bind]

theorem blocksFrom_length (f : Nat → JVal → List String) :
    ∀ (items : List JVal) (i : Nat), (blocksFrom f i items).length = items.length := by
  intro items
  induction items with
  | nil => intro i; rfl
  | cons x xs ih => intro i; simp [blocksFrom, ih]

theorem blocksFrom_get? (f : Nat → JVal → List String) :
    ∀ (items : List JVal) (i k : Nat) (it : JVal), items.get? k = some it →
      (blocksFrom f i items).get? k = some (f (i + k) it) := by
  intro items
  induction items with
  | nil => intro i k it h; simp at h
  | cons x xs ih =>
    intro i k it h
    cases k with
    | zero =>
      simp at h
      subst h
      simp [blocksFrom]
    | succ k' =>
      have h' : xs.get? k' = some it := by simpa using h
      have := ih (i + 1) k' it h'
      rw [show i + (k' + 1) = (i + 1) + k' by omega]
      simpa [blocksFrom] using this

/-! ## Claims about the request executor -/

/-- **C1.** A POST whose response has status 429 makes `_post` return the
response body text without raising — the fixed fallback sentence when the
body is empty — while every other non-2xx status propagates the
`HTTPStatusError` to the caller. -/
theorem claim1_post_429_soft (resp : HttpResponse) :
    (resp.status = 429 →
      postClassify resp =
        .text (if resp.text = "" then rateLimitFallback else resp.text)) ∧
    (¬ (200 ≤ resp.status ∧ resp.status ≤ 299) → resp.status ≠ 429 →
      postClassify resp = .raised "HTTPStatusError") := by
  constructor
  · intro h429
    have hno2xx : ¬ (200 ≤ resp.status ∧ resp.status ≤ 299) := by omega
    simp [postClassify, hno2xx, h429]
  · intro hno2xx hne
    simp [postClassify, hno2xx, hne]

theorem claim1_witness :
    postClassify ⟨429, ""⟩ = .text rateLimitFallback ∧
    postClassify ⟨429, "slow down"⟩ = .text "slow down" ∧
    postClassify ⟨500, "boom"⟩ = .raised "HTTPStatusError" := by
  refine ⟨?_, ?_, ?_⟩
  · have h := (claim1_post_429_soft ⟨429, ""⟩).1 rfl
    simpa using h
  · have h := (claim1_post_429_soft ⟨429, "slow down"⟩).1 rfl
    simpa using h
  · exact (claim1_post_429_soft ⟨500, "boom"⟩).2 (by decide) (by decide)

/-! ## Claims about parameter validation -/

/-- **C3.** An enumerated parameter outside its fixed allowed set makes the
operation return a validation-error string containing the invalid value and
the full allowed set, with no network call issued. -/
theorem claim3_enum_validation :
    (∀ (subreddit : String) (limit : Int) (timeframe : String) (payload : JVal),
      timeframe ∉ validTimeframes →
        getSubredditPosts subreddit limit timeframe payload =
          .ok ⟨timeframeError timeframe, false⟩ ∧
        strContains (timeframeError timeframe) timeframe ∧
        strContains (timeframeError timeframe) "hour, day, week, month, year, all") ∧
    (∀ (query : String) (limit : Int) (sort : String) (payload : JVal),
      sort ∉ validSorts →
        searchSubreddits query limit sort payload = .ok ⟨sortError sort, false⟩ ∧
        strContains (sortError sort) sort ∧
        strContains (sortError sort) "relevance, activity") := by
  constructor
  · intro subreddit limit timeframe payload h
    refine ⟨by simp [getSubredditPosts, h], ?_, ?_⟩
    · exact ⟨"Error: Invalid timeframe \x27",
        "\x27. Please use one of: " ++ String.intercalate ", " validTimeframes,
        by simp [timeframeError, String.append_assoc]⟩
    · refine ⟨"Error: Invalid timeframe \x27" ++ timeframe ++ "\x27. Please use one of: ",
        "", ?_⟩
      show timeframeError timeframe = _
      simp [timeframeError, String.append_assoc]
      rfl
  · intro query limit sort payload h
    refine ⟨by simp [searchSubreddits, h], ?_, ?_⟩
    · exact ⟨"Error: Invalid sort option \x27",
        "\x27. Please use one of: " ++ String.intercalate ", " validSorts,
        by simp [sortError, String.append_assoc]⟩
    · refine ⟨"Error: Invalid sort option \x27" ++ sort ++ "\x27. Please use one of: ",
        "", ?_⟩
      show sortError sort = _
      simp [sortError, String.append_assoc]
      rfl

theorem claim3_witness :
    (getSubredditPosts "python" 5 "decade" (.obj []) =
      .ok ⟨timeframeError "decade", false⟩ ∧
      strContains (timeframeError "decade") "decade" ∧
      strContains (timeframeError "decade") "hour, day, week, month, year, all") ∧
    (searchSubreddits "python" 5 "newest" (.obj []) = .ok ⟨sortError "newest", false⟩ ∧
      strContains (sortError "newest") "newest" ∧
      strContains (sortError "newest") "relevance, activity") :=
  ⟨claim3_enum_validation.1 "python" 5 "decade" (.obj []) (by decide),
   claim3_enum_validation.2 "python" 5 "newest" (.obj []) (by decide)⟩

/-- **C4.** With a valid enumerated parameter, an integer limit outside
`[1, 100]` yields the validation-error string with no network call, and any
limit inside `[1, 100]` passes validation (the call proceeds to the fetch
phase). -/
theorem claim4_limit_validation :
    (∀ (subreddit : String) (limit : Int) (timeframe : String) (payload : JVal),
      timeframe ∈ validTimeframes → ¬ (1 ≤ limit ∧ limit ≤ 100) →
        getSubredditPosts subreddit limit timeframe payload =
          .ok ⟨limitError limit, false⟩) ∧
    (∀ (query : String) (limit : Int) (sort : String) (payload : JVal),
      sort ∈ validSorts → ¬ (1 ≤ limit ∧ limit ≤ 100) →
        searchSubreddits query limit sort payload = .ok ⟨limitError limit, false⟩) ∧
    (∀ (subreddit : String) (limit : Int) (timeframe : String) (payload : JVal),
      timeframe ∈ validTimeframes → 1 ≤ limit → limit ≤ 100 →
        getSubredditPosts subreddit limit timeframe payload =
          getPostsFetch subreddit timeframe payload) ∧
    (∀ (query : String) (limit : Int) (sort : String) (payload : JVal),
      sort ∈ validSorts → 1 ≤ limit → limit ≤ 100 →
        searchSubreddits query limit sort payload = searchFetch query sort payload) := by
  refine ⟨?_, ?_, ?_, ?_⟩
  · intro subreddit limit timeframe payload ht hl
    simp [getSubredditPosts, ht, hl]
  · intro query limit sort payload hs hl
    simp [searchSubreddits, hs, hl]
  · intro subreddit limit timeframe payload ht h1 h2
    simp [getSubredditPosts, ht, h1, h2]
  · intro query limit sort payload hs h1 h2
    simp [searchSubreddits, hs, h1, h2]

theorem claim4_witness :
    getSubredditPosts "python" 0 "day" (.obj []) = .ok ⟨limitError 0, false⟩ ∧
    searchSubreddits "python" 101 "relevance" (.obj []) = .ok ⟨limitError 101, false⟩ ∧
    getSubredditPosts "python" 100 "day" (.obj []) = getPostsFetch "python" "day" (.obj []) ∧
    searchSubreddits "python" 1 "relevance" (.obj []) =
      searchFetch "python" "relevance" (.obj []) :=
  ⟨claim4_limit_validation.1 "python" 0 "day" (.obj []) (by decide) (by omega),
   claim4_limit_validation.2.1 "python" 101 "relevance" (.obj []) (by decide) (by omega),
   claim4_limit_validation.2.2.1 "python" 100 "day" (.obj []) (by decide) (by omega) (by omega),
   claim4_limit_validation.2.2.2 "python" 1 "relevance" (.obj []) (by decide) (by omega) (by omega)⟩

/-- **C10.** The enumerated parameter is validated before the limit: when
both are invalid, the returned error is the enumerated-parameter one, and no
network call is made. -/
theorem claim10_enum_before_limit :
    (∀ (subreddit : String) (limit : Int) (timeframe : String) (payload : JVal),
      timeframe ∉ validTimeframes → ¬ (1 ≤ limit ∧ limit ≤ 100) →
        getSubredditPosts subreddit limit timeframe payload =
          .ok ⟨timeframeError timeframe, false⟩) ∧
    (∀ (query : String) (limit : Int) (sort : String) (payload : JVal),
      sort ∉ validSorts → ¬ (1 ≤ limit ∧ limit ≤ 100) →
        searchSubreddits query limit sort payload = .ok ⟨sortError sort, false⟩) := by
  constructor
  · intro subreddit limit timeframe payload ht _
    simp [getSubredditPosts, ht]
  · intro query limit sort payload hs _
    simp [searchSubreddits, hs]

theorem claim10_witness :
    getSubredditPosts "python" 0 "decade" (.obj []) =
      .ok ⟨timeframeError "decade", false⟩ ∧
    searchSubreddits "python" 0 "newest" (.obj []) = .ok ⟨sortError "newest", false⟩ :=
  ⟨claim10_enum_before_limit.1 "python" 0 "decade" (.obj []) (by decide) (by omega),
   claim10_enum_before_limit.2 "python" 0 "newest" (.obj []) (by decide) (by omega)⟩

/-! ## Claims about the response normalizer -/

/-- **C5.** A successful payload with no top-level `error` field whose
`data.children` array is empty — or whose `data` or `children` keys are
absent — makes both operations return their fixed no-results sentence,
which names the subreddit and timeframe (resp. the query) and is never the
empty string; no exception is raised. -/
theorem claim5_empty_listing :
    (∀ (subreddit : String) (limit : Int) (timeframe : String)
        (fields : List (String × JVal)),
      timeframe ∈ validTimeframes → 1 ≤ limit → limit ≤ 100 →
      lookupField fields "error" = none →
      (lookupField fields "data" = none ∨
        ∃ dfields, lookupField fields "data" = some (.obj dfields) ∧
          (lookupField dfields "children" = none ∨
            lookupField dfields "children" = some (.arr []))) →
        getSubredditPosts subreddit limit timeframe (.obj fields) =
          .ok ⟨noPostsMsg subreddit timeframe, true⟩ ∧
        noPostsMsg subreddit timeframe ≠ "" ∧
        strContains (noPostsMsg subreddit timeframe) subreddit ∧
        strContains (noPostsMsg subreddit timeframe) timeframe) ∧
    (∀ (query : String) (limit : Int) (sort : String)
        (fields : List (String × JVal)),
      sort ∈ validSorts → 1 ≤ limit → limit ≤ 100 →
      lookupField fields "error" = none →
      (lookupField fields "data" = none ∨
        ∃ dfields, lookupField fields "data" = some (.obj dfields) ∧
          (lookupField dfields "children" = none ∨
            lookupField dfields "children" = some (.arr []))) →
        searchSubreddits query limit sort (.obj fields) =
          .ok ⟨noSubsMsg query, true⟩ ∧
        noSubsMsg query ≠ "" ∧
        strContains (noSubsMsg query) query) := by
  constructor
  · intro subreddit limit timeframe fields ht h1 h2 he hempty
    refine ⟨?_, ?_, ?_, ?_⟩
    · rw [show getSubredditPosts subreddit limit timeframe (.obj fields) =
        getPostsFetch subreddit timeframe (.obj fields) by
          simp [getSubredditPosts, ht, h1, h2]]
      rcases hempty with hd | ⟨dfields, hd, hc | hc⟩
      · simp [getPostsFetch, he, hd, truthy, lookupField, Bind.bind, Except.bind]
      · simp [getPostsFetch, he, hd, hc, truthy, Bind.bind, Except.bind]
      · simp [getPostsFetch, he, hd, hc, truthy, Bind.bind, Except.bind]
    · rw [show noPostsMsg subreddit timeframe = "No top posts found in r/" ++
        (subreddit ++ (" for the timeframe \x27" ++ (timeframe ++ "\x27."))) by
          simp [noPostsMsg, String.append_assoc]]
      exact nonempty_of_append_left _ _ (by decide)
    · exact ⟨"No top posts found in r/",
        " for the timeframe \x27" ++ (timeframe ++ "\x27."),
        by simp [noPostsMsg, String.append_assoc]⟩
    · exact ⟨"No top posts found in r/" ++ subreddit ++ " for the timeframe \x27",
        "\x27.", by simp [noPostsMsg, String.append_assoc]⟩
  · intro query limit sort fields hs h1 h2 he hempty
    refine ⟨?_, ?_, ?_⟩
    · rw [show searchSubreddits query limit sort (.obj fields) =
        searchFetch query sort (.obj fields) by simp [searchSubreddits, hs, h1, h2]]
      rcases hempty with hd | ⟨dfields, hd, hc | hc⟩
      · simp [searchFetch, he, hd, truthy, lookupField, Bind.bind, Except.bind]
      · simp [searchFetch, he, hd, hc, truthy, Bind.bind, Except.bind]
      · simp [searchFetch, he, hd, hc, truthy, Bind.bind, Except.bind]
    · rw [show noSubsMsg query = "No subreddits found matching the query \x27" ++
        (query ++ "\x27.") by simp [noSubsMsg, String.append_assoc]]
      exact nonempty_of_append_left _ _ (by decide)
    · exact ⟨"No subreddits found matching the query \x27", "\x27.",
        by simp [noSubsMsg, String.append_assoc]⟩

theorem claim5_witness :
    (getSubredditPosts "python" 5 "day"
        (.obj [("data", .obj [("children", .arr [])])]) =
      .ok ⟨noPostsMsg "python" "day", true⟩ ∧
      noPostsMsg "python" "day" ≠ "" ∧
      strContains (noPostsMsg "python" "day") "python" ∧
      strContains (noPostsMsg "python" "day") "day") ∧
    (searchSubreddits "cooking" 5 "relevance" (.obj []) =
      .ok ⟨noSubsMsg "cooking", true⟩ ∧
      noSubsMsg "cooking" ≠ "" ∧
      strContains (noSubsMsg "cooking") "cooking") :=
  ⟨claim5_empty_listing.1 "python" 5 "day" [("data", .obj [("children", .arr [])])]
      (by decide) (by omega) (by omega) rfl
      (Or.inr ⟨[("children", .arr [])], rfl, Or.inr rfl⟩),
   claim5_empty_listing.2 "cooking" 5 "relevance" []
      (by decide) (by omega) (by omega) rfl (Or.inl rfl)⟩

/-- **C6.** A payload with a top-level `error` field makes the normalizer
return the formatted string combining the error code and the message,
without raising; the `data` field (hence `data.children`) is never read:
overwriting it leaves the output unchanged. -/
theorem claim6_error_field :
    ∀ (subreddit query : String) (limit : Int) (timeframe sort : String)
      (fields : List (String × JVal)) (e : JVal),
      timeframe ∈ validTimeframes → sort ∈ validSorts → 1 ≤ limit → limit ≤ 100 →
      lookupField fields "error" = some e →
      (getSubredditPosts subreddit limit timeframe (.obj fields) =
        .ok ⟨"Error from Reddit API: " ++ pystr e ++ " - " ++
          pystr ((lookupField fields "message").getD (.str "")), true⟩) ∧
      (∀ v, getSubredditPosts subreddit limit timeframe
            (.obj (setField fields "data" v)) =
          getSubredditPosts subreddit limit timeframe (.obj fields)) ∧
      (searchSubreddits query limit sort (.obj fields) =
        .ok ⟨"Error from Reddit API during search: " ++ pystr e ++ " - " ++
          pystr ((lookupField fields "message").getD (.str "")), true⟩) ∧
      (∀ v, searchSubreddits query limit sort (.obj (setField fields "data" v)) =
          searchSubreddits query limit sort (.obj fields)) := by
  intro subreddit query limit timeframe sort fields e ht hs h1 h2 he
  have he' : ∀ v, lookupField (setField fields "data" v) "error" = some e := by
    intro v
    rw [lookupField_setField_ne fields "data" "error" _ (by decide)]
    exact he
  have hm' : ∀ v, lookupField (setField fields "data" v) "message" =
      lookupField fields "message" :=
    fun v => lookupField_setField_ne fields "data" "message" v (by decide)
  have hget : ∀ gfields : List (String × JVal), lookupField gfields "error" = some e →
      getSubredditPosts subreddit limit timeframe (.obj gfields) =
        .ok ⟨"Error from Reddit API: " ++ pystr e ++ " - " ++
          pystr ((lookupField gfields "message").getD (.str "")), true⟩ := by
    intro gfields hge
    simp [getSubredditPosts, ht, h1, h2, getPostsFetch, hge, pyIndex,
      Bind.bind, Except.bind]
  have hsearch : ∀ gfields : List (String × JVal), lookupField gfields "error" = some e →
      searchSubreddits query limit sort (.obj gfields) =
        .ok ⟨"Error from Reddit API during search: " ++ pystr e ++ " - " ++
          pystr ((lookupField gfields "message").getD (.str "")), true⟩ := by
    intro gfields hge
    simp [searchSubreddits, hs, h1, h2, searchFetch, hge, pyIndex,
      Bind.bind, Except.bind]
  refine ⟨hget fields he, ?_, hsearch fields he, ?_⟩
  · intro v
    rw [hget _ (he' v), hget fields he, hm' v]
  · intro v
    rw [hsearch _ (he' v), hsearch fields he, hm' v]

theorem claim6_witness :
    (getSubredditPosts "python" 5 "day"
        (.obj [("error", .int 403), ("message", .str "Forbidden"),
               ("data", .obj [("children", .arr [.obj []])])]) =
      .ok ⟨"Error from Reddit API: 403 - Forbidden", true⟩) ∧
    (getSubredditPosts "python" 5 "day"
        (.obj (setField [("error", .int 403), ("message", .str "Forbidden"),
               ("data", .obj [("children", .arr [.obj []])])] "data" (.int 7))) =
      getSubredditPosts "python" 5 "day"
        (.obj [("error", .int 403), ("message", .str "Forbidden"),
               ("data", .obj [("children", .arr [.obj []])])])) ∧
    (searchSubreddits "cooking" 5 "relevance"
        (.obj [("error", .int 403), ("message", .str "Forbidden"),
               ("data", .obj [("children", .arr [.obj []])])]) =
      .ok ⟨"Error from Reddit API during search: 403 - Forbidden", true⟩) := by
  have h := claim6_error_field "python" "cooking" 5 "day" "relevance"
    [("error", .int 403), ("message", .str "Forbidden"),
     ("data", .obj [("children", .arr [.obj []])])] (.int 403)
    (by decide) (by decide) (by omega) (by omega) rfl
  exact ⟨h.1, h.2.1 (.int 7), h.2.2.1⟩

/-- **C7.** A non-empty `data.children` array of N well-shaped items is
rendered as the header followed by the per-item blocks in array order (never
re-sorted, truncated or extended): there are exactly N blocks, block k
renders item k, each block's head line carries the number k+1, and every
other line of a block is indented (so the numbered entries are exactly the
block heads, numbered 1 through N in item order). -/
theorem claim7_order_preserving :
    (∀ (subreddit : String) (limit : Int) (timeframe : String)
        (fields dfields : List (String × JVal)) (items : List JVal),
      timeframe ∈ validTimeframes → 1 ≤ limit → limit ≤ 100 →
      lookupField fields "error" = none →
      lookupField fields "data" = some (.obj dfields) →
      lookupField dfields "children" = some (.arr items) →
      items ≠ [] →
      (∀ it ∈ items, isGoodPostItem it = true) →
        getSubredditPosts subreddit limit timeframe (.obj fields) =
          .ok ⟨String.intercalate "\n"
            (postsHeader items.length subreddit timeframe ::
              (blocksFrom postBlock 0 items).flatten), true⟩ ∧
        (blocksFrom postBlock 0 items).length = items.length ∧
        (∀ (k : Nat) (it : JVal), items.get? k = some it →
          (blocksFrom postBlock 0 items).get? k = some (postBlock k it)) ∧
        (∀ (k : Nat) (it : JVal),
          ∃ r, (postBlock k it).head? = some (toString (k + 1) ++ r)) ∧
        (∀ (k : Nat) (it : JVal), ∀ l ∈ (postBlock k it).tail,
          ∃ r, l = "   " ++ r)) ∧
    (∀ (query : String) (limit : Int) (sort : String)
        (fields dfields : List (String × JVal)) (items : List JVal),
      sort ∈ validSorts → 1 ≤ limit → limit ≤ 100 →
      lookupField fields "error" = none →
      lookupField fields "data" = some (.obj dfields) →
      lookupField dfields "children" = some (.arr items) →
      items ≠ [] →
      (∀ it ∈ items, isGoodSubItem it = true) →
        searchSubreddits query limit sort (.obj fields) =
          .ok ⟨String.intercalate "\n"
            (subsHeader items.length query sort ::
              (blocksFrom subBlock 0 items).flatten), true⟩ ∧
        (blocksFrom subBlock 0 items).length = items.length ∧
        (∀ (k : Nat) (it : JVal), items.get? k = some it →
          (blocksFrom subBlock 0 items).get? k = some (subBlock k it)) ∧
        (∀ (k : Nat) (it : JVal),
          ∃ r, (subBlock k it).head? = some (toString (k + 1) ++ r)) ∧
        (∀ (k : Nat) (it : JVal), ∀ l ∈ (subBlock k it).tail,
          ∃ r, l = "   " ++ r)) := by
  constructor
  · intro subreddit limit timeframe fields dfields items ht h1 h2 he hd hc hne hgood
    refine ⟨?_, blocksFrom_length postBlock items 0, ?_, ?_, ?_⟩
    · rcases items with _ | ⟨x, xs⟩
      · exact absurd rfl hne
      · simp [getSubredditPosts, ht, h1, h2, getPostsFetch, he, hd, hc, truthy,
          pyLen, pyIterate, formatPosts_good (x :: xs) hgood 0,
          Bind.bind, Except.bind]
    · intro k it hk
      have := blocksFrom_get? postBlock items 0 k it hk
      simpa using this
    · intro k it
      refine ⟨". \"" ++
        (pystr ((lookupField (postFields it) "title").getD (.str "No Title")) ++
          ("\" by u/" ++
            (pystr ((lookupField (postFields it) "author").getD (.str "Unknown Author")) ++
              (" (Score: " ++
                (pystr ((lookupField (postFields it) "score").getD (.int 0)) ++ ")"))))), ?_⟩
      simp only [postBlock, List.head?_cons, Option.some.injEq, String.append_assoc]
    · intro k it l hl
      simp only [postBlock, List.tail_cons, List.mem_singleton] at hl
      subst hl
      exact ⟨"Link: " ++
        (if truthy ((lookupField (postFields it) "permalink").getD (.str "")) then
          "https://www.reddit.com" ++
            pystr ((lookupField (postFields it) "permalink").getD (.str ""))
        else "No Link"), by rw [← String.append_assoc]; rfl⟩
  · intro query limit sort fields dfields items hs h1 h2 he hd hc hne hgood
    refine ⟨?_, blocksFrom_length subBlock items 0, ?_, ?_, ?_⟩
    · rcases items with _ | ⟨x, xs⟩
      · exact absurd rfl hne
      · simp [searchSubreddits, hs, h1, h2, searchFetch, he, hd, hc, truthy,
          pyLen, pyIterate, formatSubs_good (x :: xs) hgood 0,
          Bind.bind, Except.bind]
    · intro k it hk
      have := blocksFrom_get? subBlock items 0 k it hk
      simpa using this
    · intro k it
      refine ⟨". r/" ++
        (pystr ((lookupField (subFields it) "display_name").getD (.str "N/A")) ++
          (" (" ++
            (subscriberDisplay ((lookupField (subFields it) "subscribers").getD (.int 0)) ++
              " subscribers)"))), ?_⟩
      simp only [subBlock, List.head?_cons, Option.some.injEq, String.append_assoc]
    · intro k it l hl
      simp only [subBlock, List.tail_cons] at hl
      rcases htr : truthy (subDescription (subFields it)) with _ | _ <;> rw [htr] at hl
      · simp at hl
      · simp only [if_true, List.mem_singleton] at hl
        subst hl
        exact ⟨"Description: " ++ pystr (subDescription (subFields it)),
          by rw [← String.append_assoc]; rfl⟩

theorem claim7_witness :
    getSubredditPosts "python" 2 "day"
        (.obj [("data", .obj [("children", .arr [
          .obj [("data", .obj [("title", .str "A"), ("author", .str "u1"),
            ("score", .int 10), ("permalink", .str "/r/python/a")])],
          .obj [("data", .obj [("title", .str "B"), ("author", .str "u2"),
            ("score", .int 5), ("permalink", .str "/r/python/b")])]])])]) =
      .ok ⟨"Top 2 posts from r/python (timeframe: day):\n\n" ++
        "1. \"A\" by u/u1 (Score: 10)\n   Link: https://www.reddit.com/r/python/a\n" ++
        "2. \"B\" by u/u2 (Score: 5)\n   Link: https://www.reddit.com/r/python/b", true⟩ := by
  have h := (claim7_order_preserving.1 "python" 2 "day"
    [("data", .obj [("children", .arr [
      .obj [("data", .obj [("title", .str "A"), ("author", .str "u1"),
        ("score", .int 10), ("permalink", .str "/r/python/a")])],
      .obj [("data", .obj [("title", .str "B"), ("author", .str "u2"),
        ("score", .int 5), ("permalink", .str "/r/python/b")])]])])]
    [("children", .arr [
      .obj [("data", .obj [("title", .str "A"), ("author", .str "u1"),
        ("score", .int 10), ("permalink", .str "/r/python/a")])],
      .obj [("data", .obj [("title", .str "B"), ("author", .str "u2"),
        ("score", .int 5), ("permalink", .str "/r/python/b")])]])]
    [.obj [("data", .obj [("title", .str "A"), ("author", .str "u1"),
        ("score", .int 10), ("permalink", .str "/r/python/a")])],
     .obj [("data", .obj [("title", .str "B"), ("author", .str "u2"),
        ("score", .int 5), ("permalink", .str "/r/python/b")])]]
    (by decide) (by omega) (by omega) rfl rfl rfl (by simp)
    (by intro it hit; fin_cases hit <;> rfl)).1
  rw [h]
  rfl

/-- **C8, counterexample.** An item whose `permalink` is present but empty
renders `"No Link"`: the canonical prefix is **not** prepended even though a
permalink is present, because the code tests Python truthiness, which
conflates the empty string with absence. -/
theorem claim8_counterexample :
    formatPost 0 (.obj [("data", .obj [("permalink", .str "")])]) =
      .ok ["1. \"No Title\" by u/Unknown Author (Score: 0)", "   Link: No Link"] ∧
    ¬ strContains "   Link: No Link" "https://www.reddit.com" := by
  refine ⟨rfl, ?_⟩
  rw [strContains_iff_sublist]
  decide

/-- **C8, amended.** An item with any subset of title/author/score/permalink
absent still renders as exactly two lines, never raising, with the
documented fallbacks (`"No Title"`, `"Unknown Author"`, `0`, `"No Link"`);
the canonical prefix `https://www.reddit.com` is prepended when the
permalink is present **and non-empty**, while an absent or empty permalink
renders as `"No Link"`. -/
theorem claim8_fallbacks :
    ∀ (i : Nat) (ifields pfields : List (String × JVal)),
      (lookupField ifields "data" = none ∧ pfields = [] ∨
        lookupField ifields "data" = some (.obj pfields)) →
      formatPost i (.obj ifields) =
        .ok [toString (i + 1) ++ ". \"" ++
               pystr ((lookupField pfields "title").getD (.str "No Title")) ++
               "\" by u/" ++
               pystr ((lookupField pfields "author").getD (.str "Unknown Author")) ++
               " (Score: " ++
               pystr ((lookupField pfields "score").getD (.int 0)) ++ ")",
             "   Link: " ++
               (if truthy ((lookupField pfields "permalink").getD (.str "")) then
                 "https://www.reddit.com" ++
                   pystr ((lookupField pfields "permalink").getD (.str ""))
               else "No Link")] ∧
      (∀ s : String, lookupField pfields "permalink" = some (.str s) → s ≠ "" →
        (if truthy ((lookupField pfields "permalink").getD (.str "")) then
          "https://www.reddit.com" ++
            pystr ((lookupField pfields "permalink").getD (.str ""))
        else "No Link") = "https://www.reddit.com" ++ s) ∧
      ((lookupField pfields "permalink" = none ∨
          lookupField pfields "permalink" = some (.str "")) →
        (if truthy ((lookupField pfields "permalink").getD (.str "")) then
          "https://www.reddit.com" ++
            pystr ((lookupField pfields "permalink").getD (.str ""))
        else "No Link") = "No Link") := by
  intro i ifields pfields hd
  have hgood : isGoodPostItem (.obj ifields) = true := by
    rcases hd with ⟨hd, _⟩ | hd <;> simp [isGoodPostItem, hd]
  have hpf : postFields (.obj ifields) = pfields := by
    rcases hd with ⟨hd, hp⟩ | hd
    · simp [postFields, hd, hp]
    · simp [postFields, hd]
  refine ⟨?_, ?_, ?_⟩
  · rw [formatPost_good i _ hgood]
    simp [postBlock, hpf]
  · intro s hs hne
    rw [hs]
    simp [truthy, pystr, hne]
  · rintro (hp | hp) <;> rw [hp] <;> simp [truthy]

theorem claim8_witness :
    formatPost 0 (.obj [("data", .obj [("permalink", .str "/r/python/a"),
        ("score", .int 3)])]) =
      .ok ["1. \"No Title\" by u/Unknown Author (Score: 3)",
           "   Link: https://www.reddit.com/r/python/a"] ∧
    formatPost 1 (.obj []) =
      .ok ["2. \"No Title\" by u/Unknown Author (Score: 0)", "   Link: No Link"] := by
  constructor
  · have h := (claim8_fallbacks 0
      [("data", .obj [("permalink", .str "/r/python/a"), ("score", .int 3)])]
      [("permalink", .str "/r/python/a"), ("score", .int 3)] (Or.inr rfl)).1
    rw [h]
    rfl
  · have h := (claim8_fallbacks 1 [] [] (Or.inl ⟨rfl, rfl⟩)).1
    rw [h]
    rfl

/-- **C9, counterexample.** An item whose `subscribers` field is present
with the value 0 renders `"(Unknown subscribers)"`, not `"(0 subscribers)"`:
the rendering does **not** distinguish a real zero count from a missing
count, because the code tests Python truthiness of the count. -/
theorem claim9_counterexample :
    formatSub 0 (.obj [("data", .obj [("display_name", .str "python"),
        ("subscribers", .int 0)])]) =
      .ok ["1. r/python (Unknown subscribers)", "   Description: No Title"] ∧
    ¬ strContains "1. r/python (Unknown subscribers)" "(0 subscribers)" := by
  refine ⟨rfl, ?_⟩
  rw [strContains_iff_sublist]
  decide

/-- **C9, amended.** In `search_subreddits` an item whose `subscribers`
field is absent **or equal to 0** renders the count `"Unknown"`, and an item
with a present non-zero integer count renders it with thousands separators:
zero is conflated with missing, not distinguished from it. -/
theorem claim9_subscribers :
    ∀ (i : Nat) (sfields : List (String × JVal)),
      (lookupField sfields "public_description" = none ∨
        ∃ s, lookupField sfields "public_description" = some (.str s)) →
      ((lookupField sfields "subscribers" = none ∨
          lookupField sfields "subscribers" = some (.int 0)) →
        ∃ lines, formatSub i (.obj [("data", .obj sfields)]) = .ok lines ∧
          lines.head? = some (toString (i + 1) ++
            (". r/" ++
              (pystr ((lookupField sfields "display_name").getD (.str "N/A")) ++
                " (Unknown subscribers)")))) ∧
      (∀ n : Int, n ≠ 0 → lookupField sfields "subscribers" = some (.int n) →
        ∃ lines, formatSub i (.obj [("data", .obj sfields)]) = .ok lines ∧
          lines.head? = some (toString (i + 1) ++
            (". r/" ++
              (pystr ((lookupField sfields "display_name").getD (.str "N/A")) ++
                (" (" ++ (intCommas n ++ " subscribers)")))))) := by
  intro i sfields hpd
  constructor
  · intro hsub
    have hgood : isGoodSubItem (.obj [("data", .obj sfields)]) = true := by
      rcases hpd with hpd | ⟨s, hpd⟩ <;> rcases hsub with hsub | hsub <;>
        simp [isGoodSubItem, lookupField, hpd, hsub]
    refine ⟨subBlock i (.obj [("data", .obj sfields)]),
      formatSub_good i _ hgood, ?_⟩
    have hsf : subFields (.obj [("data", .obj sfields)]) = sfields := by
      simp [subFields, lookupField]
    have hdisp : subscriberDisplay
        ((lookupField sfields "subscribers").getD (.int 0)) = "Unknown" := by
      rcases hsub with hsub | hsub <;> rw [hsub] <;> simp [subscriberDisplay, truthy]
    simp only [subBlock, hsf, hdisp, List.head?_cons, Option.some.injEq,
      String.append_assoc]
    rfl
  · intro n hn hsub
    have hgood : isGoodSubItem (.obj [("data", .obj sfields)]) = true := by
      rcases hpd with hpd | ⟨s, hpd⟩ <;> simp [isGoodSubItem, lookupField, hpd, hsub]
    refine ⟨subBlock i (.obj [("data", .obj sfields)]),
      formatSub_good i _ hgood, ?_⟩
    have hsf : subFields (.obj [("data", .obj sfields)]) = sfields := by
      simp [subFields, lookupField]
    have hdisp : subscriberDisplay
        ((lookupField sfields "subscribers").getD (.int 0)) = intCommas n := by
      rw [hsub]
      simp [subscriberDisplay, truthy, hn]
    simp only [subBlock, hsf, hdisp, List.head?_cons, Option.some.injEq,
      String.append_assoc]

theorem claim9_witness :
    (∃ lines, formatSub 0 (.obj [("data", .obj [("display_name", .str "python")])]) =
        .ok lines ∧
      lines.head? = some "1. r/python (Unknown subscribers)") ∧
    (∃ lines, formatSub 0 (.obj [("data", .obj [("display_name", .str "python"),
        ("subscribers", .int 1234567)])]) = .ok lines ∧
      lines.head? = some "1. r/python (1,234,567 subscribers)") := by
  constructor
  · have h := (claim9_subscribers 0 [("display_name", .str "python")]
      (Or.inl rfl)).1 (Or.inl rfl)
    simpa using h
  · have h := (claim9_subscribers 0
      [("display_name", .str "python"), ("subscribers", .int 1234567)]
      (Or.inl rfl)).2 1234567 (by omega) rfl
    simpa using h

/-! ## Claim about `create_post` failure semantics -/

/-- **C2, counterexample.** `create_post` with an invalid kind raises a
`ValueError` rather than returning the failure: the claim that validation
failures are never thrown is false at this input. -/
theorem claim2_counterexample :
    createPostValidate "post" none none =
      .raise "Invalid post kind. Must be one of \x27self\x27 or \x27link\x27." ∧
    createPostValidate "self" none none =
      .raise "Text content is required for text posts." ∧
    createPostValidate "link" (some "body") none =
      .raise "URL is required for link posts (including images)." := by
  refine ⟨rfl, rfl, rfl⟩

/-- **C2, amended.** `get_subreddit_posts` and `search_subreddits` report
validation failures as returned error strings, but `create_post` raises a
`ValueError` for an invalid kind, for `kind='self'` without text, and for
`kind='link'` without url. -/
theorem claim2_validation_reporting :
    (∀ (subreddit : String) (limit : Int) (timeframe : String) (payload : JVal),
      timeframe ∉ validTimeframes →
        getSubredditPosts subreddit limit timeframe payload =
          .ok ⟨timeframeError timeframe, false⟩) ∧
    (∀ (subreddit : String) (limit : Int) (timeframe : String) (payload : JVal),
      timeframe ∈ validTimeframes → ¬ (1 ≤ limit ∧ limit ≤ 100) →
        getSubredditPosts subreddit limit timeframe payload =
          .ok ⟨limitError limit, false⟩) ∧
    (∀ (query : String) (limit : Int) (sort : String) (payload : JVal),
      sort ∉ validSorts →
        searchSubreddits query limit sort payload = .ok ⟨sortError sort, false⟩) ∧
    (∀ (query : String) (limit : Int) (sort : String) (payload : JVal),
      sort ∈ validSorts → ¬ (1 ≤ limit ∧ limit ≤ 100) →
        searchSubreddits query limit sort payload = .ok ⟨limitError limit, false⟩) ∧
    (∀ (kind : String) (text url : Option String),
      kind ≠ "self" → kind ≠ "link" →
        createPostValidate kind text url =
          .raise "Invalid post kind. Must be one of \x27self\x27 or \x27link\x27.") ∧
    (∀ (text url : Option String), text = none ∨ text = some "" →
        createPostValidate "self" text url =
          .raise "Text content is required for text posts.") ∧
    (∀ (text url : Option String), url = none ∨ url = some "" →
        createPostValidate "link" text url =
          .raise "URL is required for link posts (including images).") := by
  refine ⟨?_, ?_, ?_, ?_, ?_, ?_, ?_⟩
  · intro subreddit limit timeframe payload ht
    simp [getSubredditPosts, ht]
  · intro subreddit limit timeframe payload ht hl
    simp [getSubredditPosts, ht, hl]
  · intro query limit sort payload hs
    simp [searchSubreddits, hs]
  · intro query limit sort payload hs hl
    simp [searchSubreddits, hs, hl]
  · intro kind text url h1 h2
    simp [createPostValidate, h1, h2]
  · intro text url h
    simp [createPostValidate, h]
  · intro text url h
    simp [createPostValidate, h]

theorem claim2_witness :
    getSubredditPosts "python" 5 "decade" (.obj []) =
      .ok ⟨timeframeError "decade", false⟩ ∧
    getSubredditPosts "python" 101 "day" (.obj []) = .ok ⟨limitError 101, false⟩ ∧
    searchSubreddits "python" 5 "newest" (.obj []) = .ok ⟨sortError "newest", false⟩ ∧
    searchSubreddits "python" 0 "activity" (.obj []) = .ok ⟨limitError 0, false⟩ ∧
    createPostValidate "image" none none =
      .raise "Invalid post kind. Must be one of \x27self\x27 or \x27link\x27." ∧
    createPostValidate "self" (some "") none =
      .raise "Text content is required for text posts." ∧
    createPostValidate "link" none (some "") =
      .raise "URL is required for link posts (including images)." :=
  ⟨claim2_validation_reporting.1 "python" 5 "decade" (.obj []) (by decide),
   claim2_validation_reporting.2.1 "python" 101 "day" (.obj []) (by decide) (by omega),
   claim2_validation_reporting.2.2.1 "python" 5 "newest" (.obj []) (by decide),
   claim2_validation_reporting.2.2.2.1 "python" 0 "activity" (.obj []) (by decide) (by omega),
   claim2_validation_reporting.2.2.2.2.1 "image" none none (by decide) (by decide),
   claim2_validation_reporting.2.2.2.2.2.1 (some "") none (Or.inr rfl),
   claim2_validation_reporting.2.2.2.2.2.2 none (some "") (Or.inr rfl)⟩

end RedditApp
